import Mathlib

/-!
Verification of the remote bandwidth-estimation congestion controller
(pkg/sfu/bwe/remotebwe/remote_bwe.go).

The controller state and its operations are shallowly embedded below.  Go
int64 quantities are modelled as Int, Go float64 arithmetic as Rat (the
claims under study are about branch structure and state updates, not about
binary floating-point rounding), the monotonic clock as an Int passed to
each operation, and the listener callback as an optional notification value
returned by the feedback handler.

The channel observer's own source is not part of the analysed tree; only
its call sites are.  It is therefore modelled from the spec as an
append-only sample accumulator, with its statistical judgments (trend,
nack ratio, sample sufficiency, highest estimate) abstracted into an
`ObserverJudge` record of functions: every theorem below holds for every
judge, so nothing depends on the unspecified estimator.
-/

namespace RemoteBweSpec

/-- Congestion states of the controller (bwe.CongestionState). -/
inductive CongestionState where
  | none
  | congested
  | congestedHangover
  deriving DecidableEq, Repr

/-- Channel trend computed by the channel observer (channelTrend). -/
inductive ChannelTrend where
  | neutral
  | clearing
  | congesting
  deriving DecidableEq, Repr

/-- Reason paired with a congesting trend (channelCongestionReason). -/
inductive ChannelCongestionReason where
  | bandwidthEstimate
  | loss
  deriving DecidableEq, Repr

/-- Result of a completed probe (bwe.ProbeSignal). -/
inductive ProbeSignal where
  | inconclusive
  | congesting
  | clearing
  deriving DecidableEq, Repr

/-- Modelled from the spec: the Channel Observer (its source is outside the
analysed tree; only remote_bwe.go call sites are present).  Spec section 4.2
describes it as a disposable, append-only accumulator of estimate samples and
nack observations, parameterized for probe vs non-probe use; it is embedded
as exactly that record of accumulated samples. -/
structure ChannelObserver where
  isProbe : Bool
  estimates : List Int
  nacks : List (Nat × Nat)
  deriving DecidableEq, Repr

/-- Modelled from the spec: SeedEstimate pre-loads the window with an initial
reference point. -/
def ChannelObserver.seedEstimate (co : ChannelObserver) (v : Int) : ChannelObserver :=
  { co with estimates := co.estimates ++ [v] }

/-- Modelled from the spec: AddEstimate appends a raw capacity sample. -/
def ChannelObserver.addEstimate (co : ChannelObserver) (v : Int) : ChannelObserver :=
  { co with estimates := co.estimates ++ [v] }

/-- Modelled from the spec: AddNack appends a loss/retransmit observation. -/
def ChannelObserver.addNack (co : ChannelObserver) (sentPackets repeatedNacks : Nat) :
    ChannelObserver :=
  { co with nacks := co.nacks ++ [(sentPackets, repeatedNacks)] }

/-- Modelled from the spec: the observer's derived judgments (GetTrend,
GetNackRatio, HasEnoughEstimateSamples, GetHighestEstimate).  The spec leaves
the statistical estimator unspecified (section 9 open question), so the
judgments are abstract functions of the accumulated samples; the theorems
below are proved for every judge. -/
structure ObserverJudge where
  getTrend : ChannelObserver → ChannelTrend × ChannelCongestionReason
  getNackRatio : ChannelObserver → Rat
  hasEnoughEstimateSamples : ChannelObserver → Bool
  getHighestEstimate : ChannelObserver → Int

/-- Configuration constants used by the controller (RemoteBWEConfig).
Durations are modelled in nanoseconds, as Go time.Duration is. -/
structure RemoteBWEConfig where
  nackRatioAttenuator : Rat
  expectedUsageThreshold : Rat
  congestedMinDuration : Int
  deriving DecidableEq, Repr

/-- DefaultRemoteBWEConfig: attenuator 0.4, threshold 0.95, congested min
duration 3s. -/
def DefaultRemoteBWEConfig : RemoteBWEConfig :=
  { nackRatioAttenuator := 2/5,
    expectedUsageThreshold := 19/20,
    congestedMinDuration := 3000000000 }

/-- The controller state record (struct RemoteBWE).  The registered listener
is modelled by whether one is present; notifications are materialized as
return values of the feedback handler. -/
structure RemoteBWE where
  config : RemoteBWEConfig
  lastReceivedEstimate : Int
  lastExpectedBandwidthUsage : Int
  committedChannelCapacity : Int
  isInProbe : Bool
  channelObserver : ChannelObserver
  congestionState : CongestionState
  congestionStateSwitchedAt : Int
  bweListener : Bool
  deriving DecidableEq, Repr

/-- newChannelObserver: the observer the controller installs, probe-mode and
seeded with the committed capacity when in probe, non-probe and empty
otherwise. -/
def RemoteBWE.mkChannelObserver (r : RemoteBWE) : ChannelObserver :=
  if r.isInProbe then
    (ChannelObserver.mk true [] []).seedEstimate r.committedChannelCapacity
  else
    ChannelObserver.mk false [] []

/-- r.newChannelObserver() as a state update: replaces the live observer. -/
def RemoteBWE.installChannelObserver (r : RemoteBWE) : RemoteBWE :=
  { r with channelObserver := r.mkChannelObserver }

/-- Go int64(f) conversion: truncation toward zero. -/
def truncToInt (q : Rat) : Int :=
  if 0 ≤ q then q.floor else q.ceil

/-- The candidate of estimateAvailableChannelCapacity before the clamp:
loss-attenuated expected usage for reason Loss, the last received estimate
otherwise. -/
def RemoteBWE.rawEstimateToCommit (J : ObserverJudge) (r : RemoteBWE)
    (reason : ChannelCongestionReason) : Int :=
  match reason with
  | ChannelCongestionReason.loss =>
      truncToInt ((r.lastExpectedBandwidthUsage : Rat) *
        (1 - r.config.nackRatioAttenuator * J.getNackRatio r.channelObserver))
  | _ => r.lastReceivedEstimate

/-- estimateToCommit after the clamp to lastReceivedEstimate. -/
def RemoteBWE.estimateToCommit (J : ObserverJudge) (r : RemoteBWE)
    (reason : ChannelCongestionReason) : Int :=
  if r.rawEstimateToCommit J reason > r.lastReceivedEstimate then r.lastReceivedEstimate
  else r.rawEstimateToCommit J reason

/-- commitThreshold = int64(ExpectedUsageThreshold * float64(lastExpectedBandwidthUsage)). -/
def RemoteBWE.commitThreshold (r : RemoteBWE) : Int :=
  truncToInt (r.config.expectedUsageThreshold * (r.lastExpectedBandwidthUsage : Rat))

/-- estimateAvailableChannelCapacity: returns whether the commit was accepted
together with the successor state; on acceptance the committed capacity is
set to the clamped candidate and a fresh observer is installed. -/
def RemoteBWE.estimateAvailableChannelCapacity (J : ObserverJudge) (r : RemoteBWE)
    (reason : ChannelCongestionReason) : Bool × RemoteBWE :=
  if r.estimateToCommit J reason > r.commitThreshold then
    (false, r)
  else
    (true, ({ r with committedChannelCapacity := r.estimateToCommit J reason }).installChannelObserver)

/-- updateCongestionState: records the new state and stamps the switch time. -/
def RemoteBWE.updateCongestionState (r : RemoteBWE) (state : CongestionState) (now : Int) :
    RemoteBWE :=
  { r with congestionState := state, congestionStateSwitchedAt := now }

/-- congestionDetectionStateMachine: evaluates one transition from the live
observer's trend.  Returns ((shouldNotify, state, committedChannelCapacity),
successor state).  The inner step yields (newState, update, intermediate
state); Go's short-circuiting of `r.isInProbe || r.estimateAvailableChannelCapacity(reason)`
is preserved: in probe the commit is not attempted. -/
def RemoteBWE.congestionDetectionStateMachine (J : ObserverJudge) (r : RemoteBWE)
    (now : Int) : (Bool × CongestionState × Int) × RemoteBWE :=
  let trend := (J.getTrend r.channelObserver).1
  let reason := (J.getTrend r.channelObserver).2
  let step : CongestionState × Bool × RemoteBWE :=
    match r.congestionState with
    | CongestionState.none =>
        if trend = ChannelTrend.congesting then
          if r.isInProbe then (CongestionState.congested, false, r)
          else
            let er := r.estimateAvailableChannelCapacity J reason
            if er.1 then (CongestionState.congested, false, er.2)
            else (CongestionState.none, false, er.2)
        else (CongestionState.none, false, r)
    | CongestionState.congested =>
        if trend = ChannelTrend.congesting then
          let er := r.estimateAvailableChannelCapacity J reason
          (CongestionState.congested, er.1, er.2)
        else (CongestionState.congestedHangover, false, r)
    | CongestionState.congestedHangover =>
        if trend = ChannelTrend.congesting then
          let er := r.estimateAvailableChannelCapacity J reason
          if er.1 then (CongestionState.congested, false, er.2)
          else (CongestionState.congestedHangover, false, er.2)
        else if now - r.congestionStateSwitchedAt ≥ r.config.congestedMinDuration then
          (CongestionState.none, false, r)
        else (CongestionState.congestedHangover, false, r)
  if step.1 ≠ r.congestionState ∨ step.2.1 = true then
    let r2 := step.2.2.updateCongestionState step.1 now
    ((true, r2.congestionState, r2.committedChannelCapacity), r2)
  else
    ((false, step.2.2.congestionState, step.2.2.committedChannelCapacity), step.2.2)

/-- A listener notification: the state and committed capacity passed to
OnCongestionStateChange. -/
structure Notification where
  state : CongestionState
  committedChannelCapacity : Int
  deriving DecidableEq, Repr

/-- HandleREMB: records the estimates, applies the in-probe freeze rule,
otherwise feeds the observer and runs the state machine; the notification is
delivered iff the machine asks for one and a listener is registered. -/
def RemoteBWE.handleREMB (J : ObserverJudge) (r : RemoteBWE) (now : Int)
    (receivedEstimate expectedBandwidthUsage : Int)
    (sentPackets repeatedNacks : Nat) : RemoteBWE × Option Notification :=
  let r1 := { r with lastReceivedEstimate := receivedEstimate,
                     lastExpectedBandwidthUsage := expectedBandwidthUsage }
  if r1.isInProbe = true ∧ r1.congestionState ≠ CongestionState.none then
    (r1, Option.none)
  else
    let r2 := { r1 with channelObserver :=
      (r1.channelObserver.addEstimate r1.lastReceivedEstimate).addNack sentPackets repeatedNacks }
    let m := r2.congestionDetectionStateMachine J now
    if m.1.1 = true ∧ m.2.bweListener = true then
      (m.2, Option.some (Notification.mk m.1.2.1 m.1.2.2))
    else
      (m.2, Option.none)

/-- Reset: reinitializes the controller state; the listener registration and
configuration survive, everything else returns to defaults. -/
def RemoteBWE.reset (r : RemoteBWE) (now : Int) : RemoteBWE :=
  let r1 := { r with lastReceivedEstimate := 0, lastExpectedBandwidthUsage := 0,
                     committedChannelCapacity := 100000000, isInProbe := false }
  let r2 := r1.installChannelObserver
  { r2 with congestionState := CongestionState.none, congestionStateSwitchedAt := now }

/-- NewRemoteBWE: a zero-valued record immediately Reset. -/
def newRemoteBWE (config : RemoteBWEConfig) (now : Int) : RemoteBWE :=
  (RemoteBWE.mk config 0 0 0 false (ChannelObserver.mk false [] [])
    CongestionState.none 0 false).reset now

/-- ProbeClusterStarting: records the probe goal usage, marks the probe in
flight and installs a probe-mode observer seeded with the committed capacity. -/
def RemoteBWE.probeClusterStarting (r : RemoteBWE) (expectedUsageBps : Int) : RemoteBWE :=
  let r1 := { r with lastExpectedBandwidthUsage := expectedUsageBps, isInProbe := true }
  r1.installChannelObserver

/-- ProbeClusterDone: captures the pre-reset state and probe observer,
unconditionally leaves probe mode, resets the congestion state and installs a
fresh non-probe observer, then decides the probe signal. -/
def RemoteBWE.probeClusterDone (J : ObserverJudge) (r : RemoteBWE) :
    (ProbeSignal × Int) × RemoteBWE :=
  let pco := r.channelObserver
  let probeCongestionState := r.congestionState
  let r1 := { r with isInProbe := false, congestionState := CongestionState.none }
  let r2 := r1.installChannelObserver
  if probeCongestionState ≠ CongestionState.none then
    ((ProbeSignal.congesting, r2.committedChannelCapacity), r2)
  else if J.hasEnoughEstimateSamples pco = false ∨ (J.getTrend pco).1 = ChannelTrend.neutral then
    ((ProbeSignal.inconclusive, r2.committedChannelCapacity), r2)
  else
    let r3 := if J.getHighestEstimate pco > r2.committedChannelCapacity then
                { r2 with committedChannelCapacity := J.getHighestEstimate pco }
              else r2
    ((ProbeSignal.clearing, r3.committedChannelCapacity), r3)

/-! Concrete judges and states used to instantiate the theorems. -/

/-- A judge that always reports a congesting trend for reason
BandwidthEstimate, with nack ratio zero. -/
def judgeCongestingBE : ObserverJudge :=
  ObserverJudge.mk (fun _ => (ChannelTrend.congesting, ChannelCongestionReason.bandwidthEstimate))
    (fun _ => 0) (fun _ => false) (fun _ => 0)

/-- A judge that always reports a neutral trend. -/
def judgeNeutral : ObserverJudge :=
  ObserverJudge.mk (fun _ => (ChannelTrend.neutral, ChannelCongestionReason.bandwidthEstimate))
    (fun _ => 0) (fun _ => false) (fun _ => 0)

/-- A judge that reports a clearing trend with enough samples and a highest
estimate of 1800000. -/
def judgeClearing : ObserverJudge :=
  ObserverJudge.mk (fun _ => (ChannelTrend.clearing, ChannelCongestionReason.bandwidthEstimate))
    (fun _ => 0) (fun _ => true) (fun _ => 1800000)

/-- In probe, state None, received estimate 50, expected usage 100. -/
def probeNoneState : RemoteBWE :=
  RemoteBWE.mk DefaultRemoteBWEConfig 50 100 100000000 true (ChannelObserver.mk true [] [])
    CongestionState.none 0 false

/-- In probe, state Congested: the feedback handler freeze applies. -/
def frozenState : RemoteBWE :=
  RemoteBWE.mk DefaultRemoteBWEConfig 50 100 500000 true (ChannelObserver.mk true [] [])
    CongestionState.congested 0 true

/-- Not in probe, state None, received 50, usage 100: a commit attempt with
reason BandwidthEstimate accepts (candidate 50, threshold 95). -/
def commitState : RemoteBWE :=
  RemoteBWE.mk DefaultRemoteBWEConfig 50 100 100000000 false (ChannelObserver.mk false [] [])
    CongestionState.none 0 false

/-- Not in probe, received 100, usage 100: a commit attempt with reason
BandwidthEstimate rejects (candidate 100 above threshold 95). -/
def rejectState : RemoteBWE :=
  RemoteBWE.mk DefaultRemoteBWEConfig 100 100 100000000 false (ChannelObserver.mk false [] [])
    CongestionState.none 0 false

/-- In CongestedHangover since time 0 with the default 3s minimum duration. -/
def hangoverState : RemoteBWE :=
  RemoteBWE.mk DefaultRemoteBWEConfig 50 100 500000 false (ChannelObserver.mk false [] [])
    CongestionState.congestedHangover 0 false

/-- A probe that saw congestion: captured state Congested. -/
def probeDoneCongestedState : RemoteBWE :=
  RemoteBWE.mk DefaultRemoteBWEConfig 50 100 500000 true (ChannelObserver.mk true [50] [])
    CongestionState.congested 0 false

/-- A probe that stayed in state None with committed capacity 500000. -/
def probeDoneNoneState : RemoteBWE :=
  RemoteBWE.mk DefaultRemoteBWEConfig 1800000 2000000 500000 true
    (ChannelObserver.mk true [1800000] []) CongestionState.none 0 false

/-- The controller state after HandleREMB has recorded the estimates and fed
the live observer, i.e. the state on which it runs the state machine. -/
def postSample (r : RemoteBWE) (re eu : Int) (sp rn : Nat) : RemoteBWE :=
  { r with lastReceivedEstimate := re, lastExpectedBandwidthUsage := eu,
           channelObserver := (r.channelObserver.addEstimate re).addNack sp rn }

/-! Helper lemmas about the commit routine and the state machine. -/

/-- A rejected commit leaves the controller state untouched. -/
theorem estimateAvailable_fail_eq (J : ObserverJudge) (r : RemoteBWE)
    (reason : ChannelCongestionReason)
    (h : (r.estimateAvailableChannelCapacity J reason).1 = false) :
    (r.estimateAvailableChannelCapacity J reason).2 = r := by
  by_cases hc : r.estimateToCommit J reason > r.commitThreshold
  · simp [RemoteBWE.estimateAvailableChannelCapacity, hc]
  · simp [RemoteBWE.estimateAvailableChannelCapacity, hc] at h

/-- An accepted commit produces the clamped candidate and a fresh observer. -/
theorem estimateAvailable_success_eq (J : ObserverJudge) (r : RemoteBWE)
    (reason : ChannelCongestionReason)
    (h : (r.estimateAvailableChannelCapacity J reason).1 = true) :
    (r.estimateAvailableChannelCapacity J reason).2 =
      ({ r with committedChannelCapacity := r.estimateToCommit J reason }).installChannelObserver := by
  by_cases hc : r.estimateToCommit J reason > r.commitThreshold
  · simp [RemoteBWE.estimateAvailableChannelCapacity, hc] at h
  · simp [RemoteBWE.estimateAvailableChannelCapacity, hc]

/-- The commit routine never changes the congestion state. -/
theorem estimateAvailable_congestionState (J : ObserverJudge) (r : RemoteBWE)
    (reason : ChannelCongestionReason) :
    (r.estimateAvailableChannelCapacity J reason).2.congestionState = r.congestionState := by
  unfold RemoteBWE.estimateAvailableChannelCapacity
  split
  · rfl
  · rfl

/-- The commit routine never changes the listener registration. -/
theorem estimateAvailable_bweListener (J : ObserverJudge) (r : RemoteBWE)
    (reason : ChannelCongestionReason) :
    (r.estimateAvailableChannelCapacity J reason).2.bweListener = r.bweListener := by
  unfold RemoteBWE.estimateAvailableChannelCapacity
  split
  · rfl
  · rfl

/-- The commit routine never changes the probe flag. -/
theorem estimateAvailable_isInProbe (J : ObserverJudge) (r : RemoteBWE)
    (reason : ChannelCongestionReason) :
    (r.estimateAvailableChannelCapacity J reason).2.isInProbe = r.isInProbe := by
  unfold RemoteBWE.estimateAvailableChannelCapacity
  split
  · rfl
  · rfl

/-- The clamped candidate never exceeds the last received estimate. -/
theorem estimateToCommit_le (J : ObserverJudge) (r : RemoteBWE)
    (reason : ChannelCongestionReason) :
    r.estimateToCommit J reason ≤ r.lastReceivedEstimate := by
  unfold RemoteBWE.estimateToCommit
  split
  · exact le_refl _
  · omega

/-- Claim C2: while a probe is in flight and the congestion state is not
None, the feedback handler records receivedEstimate and expectedUsage
unconditionally and returns without adding any sample to the channel
observer, without changing congestionState, committedChannelCapacity or
congestionStateSwitchedAt, and without notifying the listener. -/
theorem c2_freeze_invariant (J : ObserverJudge) (r : RemoteBWE) (now re eu : Int)
    (sp rn : Nat) (hp : r.isInProbe = true)
    (hs : r.congestionState ≠ CongestionState.none) :
    r.handleREMB J now re eu sp rn =
      ({ r with lastReceivedEstimate := re, lastExpectedBandwidthUsage := eu },
       Option.none) := by
  simp [RemoteBWE.handleREMB, hp, hs]

/-- Witness for C2 at a concrete frozen controller state. -/
theorem c2_freeze_invariant_witness :
    frozenState.isInProbe = true
    ∧ frozenState.congestionState ≠ CongestionState.none
    ∧ frozenState.handleREMB judgeCongestingBE 7 60 110 10 2 =
        ({ frozenState with lastReceivedEstimate := 60, lastExpectedBandwidthUsage := 110 },
         Option.none) :=
  ⟨rfl, by decide,
   c2_freeze_invariant judgeCongestingBE frozenState 7 60 110 10 2 rfl (by decide)⟩

/-- Claim C3: whenever the capacity commit algorithm accepts, the committed
channel capacity it assigns is at most lastReceivedEstimate, for every
reason and every input. -/
theorem c3_commit_clamp (J : ObserverJudge) (r : RemoteBWE)
    (reason : ChannelCongestionReason)
    (h : (r.estimateAvailableChannelCapacity J reason).1 = true) :
    (r.estimateAvailableChannelCapacity J reason).2.committedChannelCapacity ≤
      r.lastReceivedEstimate := by
  rw [estimateAvailable_success_eq J r reason h]
  simpa [RemoteBWE.installChannelObserver] using estimateToCommit_le J r reason

/-- Witness for C3 at a concrete accepting commit. -/
theorem c3_commit_clamp_witness :
    (commitState.estimateAvailableChannelCapacity judgeCongestingBE
        ChannelCongestionReason.bandwidthEstimate).1 = true
    ∧ (commitState.estimateAvailableChannelCapacity judgeCongestingBE
        ChannelCongestionReason.bandwidthEstimate).2.committedChannelCapacity ≤
        commitState.lastReceivedEstimate := by
  have h : (commitState.estimateAvailableChannelCapacity judgeCongestingBE
      ChannelCongestionReason.bandwidthEstimate).1 = true := by
    norm_num [RemoteBWE.estimateAvailableChannelCapacity, RemoteBWE.estimateToCommit,
      RemoteBWE.rawEstimateToCommit, RemoteBWE.commitThreshold, truncToInt, Rat.floor,
      commitState, DefaultRemoteBWEConfig, judgeCongestingBE]
  exact ⟨h, c3_commit_clamp judgeCongestingBE commitState
    ChannelCongestionReason.bandwidthEstimate h⟩

/-- Claim C4: a commit whose clamped candidate exceeds the commit threshold
is rejected with the controller state unchanged; otherwise it is accepted,
the committed capacity becomes the candidate and a freshly constructed
channel observer replaces the live one. -/
theorem c4_threshold_commit (J : ObserverJudge) (r : RemoteBWE)
    (reason : ChannelCongestionReason) :
    (r.estimateToCommit J reason > r.commitThreshold →
        r.estimateAvailableChannelCapacity J reason = (false, r))
    ∧ (¬ r.estimateToCommit J reason > r.commitThreshold →
        (r.estimateAvailableChannelCapacity J reason).1 = true
        ∧ (r.estimateAvailableChannelCapacity J reason).2.committedChannelCapacity =
            r.estimateToCommit J reason
        ∧ (r.estimateAvailableChannelCapacity J reason).2.channelObserver =
            ({ r with committedChannelCapacity := r.estimateToCommit J reason } :
              RemoteBWE).mkChannelObserver) := by
  constructor
  · intro hc
    simp [RemoteBWE.estimateAvailableChannelCapacity, hc]
  · intro hc
    simp [RemoteBWE.estimateAvailableChannelCapacity, hc, RemoteBWE.installChannelObserver]

/-- Witness for C4: a concrete rejected commit and a concrete accepted one. -/
theorem c4_threshold_commit_witness :
    rejectState.estimateAvailableChannelCapacity judgeCongestingBE
        ChannelCongestionReason.bandwidthEstimate = (false, rejectState)
    ∧ (commitState.estimateAvailableChannelCapacity judgeCongestingBE
        ChannelCongestionReason.bandwidthEstimate).2.committedChannelCapacity = 50 := by
  have h1 : rejectState.estimateToCommit judgeCongestingBE
      ChannelCongestionReason.bandwidthEstimate > rejectState.commitThreshold := by
    norm_num [RemoteBWE.estimateToCommit, RemoteBWE.rawEstimateToCommit,
      RemoteBWE.commitThreshold, truncToInt, Rat.floor, rejectState,
      DefaultRemoteBWEConfig, judgeCongestingBE]
  have h2 : ¬ commitState.estimateToCommit judgeCongestingBE
      ChannelCongestionReason.bandwidthEstimate > commitState.commitThreshold := by
    norm_num [RemoteBWE.estimateToCommit, RemoteBWE.rawEstimateToCommit,
      RemoteBWE.commitThreshold, truncToInt, Rat.floor, commitState,
      DefaultRemoteBWEConfig, judgeCongestingBE]
  refine ⟨(c4_threshold_commit judgeCongestingBE rejectState
      ChannelCongestionReason.bandwidthEstimate).1 h1, ?_⟩
  rw [((c4_threshold_commit judgeCongestingBE commitState
      ChannelCongestionReason.bandwidthEstimate).2 h2).2.1]
  norm_num [RemoteBWE.estimateToCommit, RemoteBWE.rawEstimateToCommit, commitState,
    DefaultRemoteBWEConfig, judgeCongestingBE]

/-- Claim C1 counterexample: in state None with a congesting trend while a
probe is in flight, the machine moves to Congested but the commit attempt is
NOT executed: the committed capacity and the observer are left untouched even
though the commit attempt, had it run, would have succeeded and set the
committed capacity to 50. -/
theorem c1_counterexample :
    (probeNoneState.congestionDetectionStateMachine judgeCongestingBE 5).2.committedChannelCapacity
        = probeNoneState.committedChannelCapacity
    ∧ (probeNoneState.congestionDetectionStateMachine judgeCongestingBE 5).2.channelObserver
        = probeNoneState.channelObserver
    ∧ (probeNoneState.congestionDetectionStateMachine judgeCongestingBE 5).2.congestionState
        = CongestionState.congested
    ∧ (probeNoneState.estimateAvailableChannelCapacity judgeCongestingBE
        ChannelCongestionReason.bandwidthEstimate).1 = true
    ∧ (probeNoneState.estimateAvailableChannelCapacity judgeCongestingBE
        ChannelCongestionReason.bandwidthEstimate).2.committedChannelCapacity = 50 := by
  refine ⟨by decide, by decide, by decide, ?_, ?_⟩ <;>
    norm_num [RemoteBWE.estimateAvailableChannelCapacity, RemoteBWE.estimateToCommit,
      RemoteBWE.rawEstimateToCommit, RemoteBWE.commitThreshold, truncToInt, Rat.floor,
      RemoteBWE.installChannelObserver, RemoteBWE.mkChannelObserver, probeNoneState,
      DefaultRemoteBWEConfig, judgeCongestingBE]

/-- Claim C1 (amended): in state None with a congesting trend the commit
attempt runs only when no probe is in flight: in probe the state becomes
Congested with no commit side effects; out of probe the state becomes
Congested exactly when the commit succeeds, and stays None with the
controller unchanged when the commit fails. -/
theorem c1_none_congesting (J : ObserverJudge) (r : RemoteBWE) (now : Int)
    (h0 : r.congestionState = CongestionState.none)
    (hc : (J.getTrend r.channelObserver).1 = ChannelTrend.congesting) :
    (r.isInProbe = true →
        (r.congestionDetectionStateMachine J now).2 =
          r.updateCongestionState CongestionState.congested now)
    ∧ (r.isInProbe = false →
        ((r.estimateAvailableChannelCapacity J (J.getTrend r.channelObserver).2).1 = true →
            (r.congestionDetectionStateMachine J now).2 =
              (r.estimateAvailableChannelCapacity J
                  (J.getTrend r.channelObserver).2).2.updateCongestionState
                CongestionState.congested now)
        ∧ ((r.estimateAvailableChannelCapacity J (J.getTrend r.channelObserver).2).1 = false →
            (r.congestionDetectionStateMachine J now).2 = r
            ∧ (r.congestionDetectionStateMachine J now).1.1 = false)) := by
  refine ⟨fun hp => ?_, fun hp => ⟨fun hsucc => ?_, fun hfail => ?_⟩⟩
  · simp [RemoteBWE.congestionDetectionStateMachine, h0, hc, hp]
  · simp [RemoteBWE.congestionDetectionStateMachine, h0, hc, hp, hsucc]
  · have he := estimateAvailable_fail_eq J r (J.getTrend r.channelObserver).2 hfail
    simp [RemoteBWE.congestionDetectionStateMachine, h0, hc, hp, hfail, he]

/-- Witness for the amended C1 at a concrete in-probe state. -/
theorem c1_none_congesting_witness :
    probeNoneState.congestionState = CongestionState.none
    ∧ (judgeCongestingBE.getTrend probeNoneState.channelObserver).1 = ChannelTrend.congesting
    ∧ (probeNoneState.congestionDetectionStateMachine judgeCongestingBE 5).2 =
        probeNoneState.updateCongestionState CongestionState.congested 5 :=
  ⟨rfl, rfl, (c1_none_congesting judgeCongestingBE probeNoneState 5 rfl rfl).1 rfl⟩

/-- Claim C5: from CongestedHangover with a non-congesting trend, the state
stays CongestedHangover (and the controller is unchanged, no notification)
while the elapsed time since the switch is below CongestedMinDuration, and
becomes None, with a notification, on the first evaluation at or past it. -/
theorem c5_hangover_exit (J : ObserverJudge) (r : RemoteBWE) (now : Int)
    (hs : r.congestionState = CongestionState.congestedHangover)
    (ht : (J.getTrend r.channelObserver).1 ≠ ChannelTrend.congesting) :
    (now - r.congestionStateSwitchedAt < r.config.congestedMinDuration →
        r.congestionDetectionStateMachine J now =
          ((false, CongestionState.congestedHangover, r.committedChannelCapacity), r))
    ∧ (now - r.congestionStateSwitchedAt ≥ r.config.congestedMinDuration →
        r.congestionDetectionStateMachine J now =
          ((true, CongestionState.none, r.committedChannelCapacity),
           r.updateCongestionState CongestionState.none now)) := by
  constructor
  · intro hlt
    have hnge : ¬ (now - r.congestionStateSwitchedAt ≥ r.config.congestedMinDuration) := by
      omega
    simp [RemoteBWE.congestionDetectionStateMachine, hs, ht, hnge]
  · intro hge
    simp [RemoteBWE.congestionDetectionStateMachine, hs, ht, hge,
      RemoteBWE.updateCongestionState]

/-- Witness for C5: still cooling down at t=100, exits at t=3000000000. -/
theorem c5_hangover_exit_witness :
    hangoverState.congestionDetectionStateMachine judgeNeutral 100 =
      ((false, CongestionState.congestedHangover, hangoverState.committedChannelCapacity),
       hangoverState)
    ∧ (hangoverState.congestionDetectionStateMachine judgeNeutral 3000000000).2.congestionState
        = CongestionState.none := by
  constructor
  · exact (c5_hangover_exit judgeNeutral hangoverState 100 rfl (by decide)).1 (by decide)
  · rw [(c5_hangover_exit judgeNeutral hangoverState 3000000000 rfl (by decide)).2 (by decide)]
    rfl

/-- Claim C6: ProbeClusterDone decides from the captured pre-reset state and
probe observer: a non-None captured state yields Congesting with capacity
unchanged; a None state with too few samples or a Neutral trend yields
Inconclusive with capacity unchanged; otherwise Clearing, raising the
committed capacity to the observer's highest estimate exactly when that
estimate exceeds it. -/
theorem c6_probe_decision (J : ObserverJudge) (r : RemoteBWE) :
    (r.congestionState ≠ CongestionState.none →
        (r.probeClusterDone J).1 = (ProbeSignal.congesting, r.committedChannelCapacity)
        ∧ (r.probeClusterDone J).2.committedChannelCapacity = r.committedChannelCapacity)
    ∧ (r.congestionState = CongestionState.none →
        (J.hasEnoughEstimateSamples r.channelObserver = false
          ∨ (J.getTrend r.channelObserver).1 = ChannelTrend.neutral) →
        (r.probeClusterDone J).1 = (ProbeSignal.inconclusive, r.committedChannelCapacity)
        ∧ (r.probeClusterDone J).2.committedChannelCapacity = r.committedChannelCapacity)
    ∧ (r.congestionState = CongestionState.none →
        J.hasEnoughEstimateSamples r.channelObserver = true →
        (J.getTrend r.channelObserver).1 ≠ ChannelTrend.neutral →
        (r.probeClusterDone J).1 =
          (ProbeSignal.clearing, (r.probeClusterDone J).2.committedChannelCapacity)
        ∧ (r.probeClusterDone J).2.committedChannelCapacity =
            (if J.getHighestEstimate r.channelObserver > r.committedChannelCapacity
             then J.getHighestEstimate r.channelObserver
             else r.committedChannelCapacity)) := by
  refine ⟨fun h1 => ?_, fun h1 h2 => ?_, fun h1 h2 h3 => ?_⟩
  · simp [RemoteBWE.probeClusterDone, RemoteBWE.installChannelObserver,
      RemoteBWE.mkChannelObserver, h1]
  · rcases h2 with h2 | h2 <;>
      simp [RemoteBWE.probeClusterDone, RemoteBWE.installChannelObserver,
        RemoteBWE.mkChannelObserver, h1, h2]
  · simp only [RemoteBWE.probeClusterDone, RemoteBWE.installChannelObserver,
      RemoteBWE.mkChannelObserver, h1, h2, h3]
    split_ifs <;> simp_all

/-- Witness for C6: one instance of each of the three outcomes. -/
theorem c6_probe_decision_witness :
    (probeDoneCongestedState.probeClusterDone judgeCongestingBE).1 =
        (ProbeSignal.congesting, probeDoneCongestedState.committedChannelCapacity)
    ∧ (probeDoneNoneState.probeClusterDone judgeNeutral).1 =
        (ProbeSignal.inconclusive, probeDoneNoneState.committedChannelCapacity)
    ∧ (probeDoneNoneState.probeClusterDone judgeClearing).2.committedChannelCapacity =
        (if judgeClearing.getHighestEstimate probeDoneNoneState.channelObserver >
            probeDoneNoneState.committedChannelCapacity
         then judgeClearing.getHighestEstimate probeDoneNoneState.channelObserver
         else probeDoneNoneState.committedChannelCapacity) :=
  ⟨((c6_probe_decision judgeCongestingBE probeDoneCongestedState).1 (by decide)).1,
   ((c6_probe_decision judgeNeutral probeDoneNoneState).2.1 rfl (Or.inl rfl)).1,
   ((c6_probe_decision judgeClearing probeDoneNoneState).2.2 rfl rfl (by decide)).2⟩

/-- Claim C7: every call to ProbeClusterDone returns one of Inconclusive,
Congesting or Clearing, and always leaves probe mode, resets the congestion
state to None and installs a fresh non-probe channel observer. -/
theorem c7_probe_done_reset (J : ObserverJudge) (r : RemoteBWE) :
    ((r.probeClusterDone J).1.1 = ProbeSignal.inconclusive
      ∨ (r.probeClusterDone J).1.1 = ProbeSignal.congesting
      ∨ (r.probeClusterDone J).1.1 = ProbeSignal.clearing)
    ∧ (r.probeClusterDone J).2.isInProbe = false
    ∧ (r.probeClusterDone J).2.congestionState = CongestionState.none
    ∧ (r.probeClusterDone J).2.channelObserver = ChannelObserver.mk false [] [] := by
  simp only [RemoteBWE.probeClusterDone, RemoteBWE.installChannelObserver,
    RemoteBWE.mkChannelObserver]
  split_ifs <;> simp_all

/-- Claim C9: after Reset (and at construction) the last estimates are zero,
the committed capacity is the 100,000,000 sentinel, the probe flag is off,
the state is None with switch time now, and a fresh non-probe observer is
installed. -/
theorem c9_reset_defaults (cfg : RemoteBWEConfig) (r : RemoteBWE) (now : Int) :
    r.reset now = RemoteBWE.mk r.config 0 0 100000000 false (ChannelObserver.mk false [] [])
        CongestionState.none now r.bweListener
    ∧ newRemoteBWE cfg now = RemoteBWE.mk cfg 0 0 100000000 false
        (ChannelObserver.mk false [] []) CongestionState.none now false := by
  constructor
  · simp [RemoteBWE.reset, RemoteBWE.installChannelObserver, RemoteBWE.mkChannelObserver]
  · simp [newRemoteBWE, RemoteBWE.reset, RemoteBWE.installChannelObserver,
      RemoteBWE.mkChannelObserver]

/-- The state machine never changes the probe flag. -/
theorem machine_isInProbe (J : ObserverJudge) (r : RemoteBWE) (now : Int) :
    (r.congestionDetectionStateMachine J now).2.isInProbe = r.isInProbe := by
  rcases hcs : r.congestionState with _ | _ | _ <;>
    simp only [RemoteBWE.congestionDetectionStateMachine, hcs] <;>
    split_ifs <;>
    simp [RemoteBWE.updateCongestionState, estimateAvailable_isInProbe]

/-- The state machine never changes the listener registration. -/
theorem machine_bweListener (J : ObserverJudge) (r : RemoteBWE) (now : Int) :
    (r.congestionDetectionStateMachine J now).2.bweListener = r.bweListener := by
  rcases hcs : r.congestionState with _ | _ | _ <;>
    simp only [RemoteBWE.congestionDetectionStateMachine, hcs] <;>
    split_ifs <;>
    simp [RemoteBWE.updateCongestionState, estimateAvailable_bweListener]

/-- The machine reports a notification exactly when the resulting state
differs from the prior one or an in-place re-commit happened in Congested. -/
theorem machine_notify_iff (J : ObserverJudge) (r : RemoteBWE) (now : Int) :
    (r.congestionDetectionStateMachine J now).1.1 = true ↔
      ((r.congestionDetectionStateMachine J now).2.congestionState ≠ r.congestionState
       ∨ (r.congestionState = CongestionState.congested
          ∧ (J.getTrend r.channelObserver).1 = ChannelTrend.congesting
          ∧ (r.estimateAvailableChannelCapacity J
              (J.getTrend r.channelObserver).2).1 = true)) := by
  rcases hcs : r.congestionState with _ | _ | _ <;>
    by_cases htr : (J.getTrend r.channelObserver).1 = ChannelTrend.congesting <;>
    rcases her : (r.estimateAvailableChannelCapacity J (J.getTrend r.channelObserver).2).1
      with _ | _ <;>
    by_cases hip : r.isInProbe = true <;>
    by_cases hel : now - r.congestionStateSwitchedAt ≥ r.config.congestedMinDuration <;>
    simp [RemoteBWE.congestionDetectionStateMachine, RemoteBWE.updateCongestionState,
      hcs, htr, her, hip, hel, estimateAvailable_congestionState]

/-- When the freeze rule does not apply, the successor state of HandleREMB is
the state machine's successor on the sampled state. -/
theorem handleREMB_fst_eq (J : ObserverJudge) (r : RemoteBWE) (now re eu : Int)
    (sp rn : Nat)
    (h : ¬ (r.isInProbe = true ∧ r.congestionState ≠ CongestionState.none)) :
    (r.handleREMB J now re eu sp rn).1 =
      ((postSample r re eu sp rn).congestionDetectionStateMachine J now).2 := by
  simp [RemoteBWE.handleREMB, postSample, h, apply_ite]

/-- When the freeze rule does not apply, HandleREMB notifies exactly when the
machine asks for a notification and a listener is registered. -/
theorem handleREMB_snd_eq (J : ObserverJudge) (r : RemoteBWE) (now re eu : Int)
    (sp rn : Nat)
    (h : ¬ (r.isInProbe = true ∧ r.congestionState ≠ CongestionState.none)) :
    (r.handleREMB J now re eu sp rn).2 =
      (if ((postSample r re eu sp rn).congestionDetectionStateMachine J now).1.1 = true
          ∧ ((postSample r re eu sp rn).congestionDetectionStateMachine J now).2.bweListener
              = true
       then Option.some (Notification.mk
          ((postSample r re eu sp rn).congestionDetectionStateMachine J now).1.2.1
          ((postSample r re eu sp rn).congestionDetectionStateMachine J now).1.2.2)
       else Option.none) := by
  simp [RemoteBWE.handleREMB, postSample, h, apply_ite]

/-- In state None while in probe, the machine leaves the committed capacity
unchanged (the in-probe disjunct short-circuits the commit call). -/
theorem machine_none_in_probe (J : ObserverJudge) (r : RemoteBWE) (now : Int)
    (h0 : r.congestionState = CongestionState.none) (hp : r.isInProbe = true) :
    (r.congestionDetectionStateMachine J now).2.committedChannelCapacity =
      r.committedChannelCapacity := by
  by_cases htr : (J.getTrend r.channelObserver).1 = ChannelTrend.congesting <;>
    simp [RemoteBWE.congestionDetectionStateMachine, RemoteBWE.updateCongestionState,
      h0, hp, htr]

/-- Claim C8: when the feedback handler evaluates the state machine, a
notification is emitted iff a listener is registered and either the resulting
state differs from the prior one or an in-place re-commit happened while
Congested; the successor state is the machine's successor regardless of the
listener, and with no listener the notification is silently dropped. -/
theorem c8_notify (J : ObserverJudge) (r : RemoteBWE) (now re eu : Int) (sp rn : Nat)
    (hnf : ¬ (r.isInProbe = true ∧ r.congestionState ≠ CongestionState.none)) :
    ((r.handleREMB J now re eu sp rn).2 ≠ Option.none ↔
      r.bweListener = true ∧
        (((postSample r re eu sp rn).congestionDetectionStateMachine J now).2.congestionState
            ≠ r.congestionState
         ∨ (r.congestionState = CongestionState.congested
            ∧ (J.getTrend (postSample r re eu sp rn).channelObserver).1 =
                ChannelTrend.congesting
            ∧ ((postSample r re eu sp rn).estimateAvailableChannelCapacity J
                (J.getTrend (postSample r re eu sp rn).channelObserver).2).1 = true)))
    ∧ (r.handleREMB J now re eu sp rn).1 =
        ((postSample r re eu sp rn).congestionDetectionStateMachine J now).2
    ∧ (r.bweListener = false → (r.handleREMB J now re eu sp rn).2 = Option.none) := by
  have hps_cs : (postSample r re eu sp rn).congestionState = r.congestionState := rfl
  have hps_bl : (postSample r re eu sp rn).bweListener = r.bweListener := rfl
  have hmbl : ((postSample r re eu sp rn).congestionDetectionStateMachine J now).2.bweListener
      = r.bweListener :=
    (machine_bweListener J (postSample r re eu sp rn) now).trans hps_bl
  have hni := machine_notify_iff J (postSample r re eu sp rn) now
  rw [hps_cs] at hni
  refine ⟨?_, handleREMB_fst_eq J r now re eu sp rn hnf, ?_⟩
  · rw [handleREMB_snd_eq J r now re eu sp rn hnf, hmbl]
    rcases hb : r.bweListener with _ | _
    · simp [hb]
    · simp [hb, hni]
      tauto
  · intro hb
    rw [handleREMB_snd_eq J r now re eu sp rn hnf, hmbl, hb]
    simp

/-- Witness for C8: a concrete non-frozen state without a listener drops the
notification. -/
theorem c8_notify_witness :
    ¬ (commitState.isInProbe = true ∧ commitState.congestionState ≠ CongestionState.none)
    ∧ (commitState.handleREMB judgeNeutral 5 50 100 10 0).2 = Option.none := by
  have h : ¬ (commitState.isInProbe = true
      ∧ commitState.congestionState ≠ CongestionState.none) := by decide
  exact ⟨h, (c8_notify judgeNeutral commitState 5 50 100 10 0 h).2.2 rfl⟩

/-- Claim C10: while a probe is in flight the feedback handler never changes
the committed channel capacity (the freeze rule returns early when the state
is not None, and in None the in-probe disjunct short-circuits the commit
call) and keeps the probe flag set; the committed capacity can change only at
ProbeClusterDone, and only upward. -/
theorem c10_probe_freeze (J : ObserverJudge) (r : RemoteBWE) (now re eu : Int)
    (sp rn : Nat) (hp : r.isInProbe = true) :
    (r.handleREMB J now re eu sp rn).1.committedChannelCapacity =
        r.committedChannelCapacity
    ∧ (r.handleREMB J now re eu sp rn).1.isInProbe = true
    ∧ r.committedChannelCapacity ≤ (r.probeClusterDone J).2.committedChannelCapacity := by
  have hmain : (r.handleREMB J now re eu sp rn).1.committedChannelCapacity =
        r.committedChannelCapacity
      ∧ (r.handleREMB J now re eu sp rn).1.isInProbe = true := by
    by_cases hs : r.congestionState = CongestionState.none
    · have hnf : ¬ (r.isInProbe = true ∧ r.congestionState ≠ CongestionState.none) := by
        simp [hs]
      rw [handleREMB_fst_eq J r now re eu sp rn hnf]
      constructor
      · exact machine_none_in_probe J (postSample r re eu sp rn) now hs hp
      · rw [machine_isInProbe]
        exact hp
    · have hf : r.isInProbe = true ∧ r.congestionState ≠ CongestionState.none := ⟨hp, hs⟩
      simp [RemoteBWE.handleREMB, hf.1, hf.2]
  refine ⟨hmain.1, hmain.2, ?_⟩
  simp only [RemoteBWE.probeClusterDone, RemoteBWE.installChannelObserver,
    RemoteBWE.mkChannelObserver]
  split_ifs <;> (try simp) <;> omega

/-- Witness for C10 at a concrete in-probe state. -/
theorem c10_probe_freeze_witness :
    probeNoneState.isInProbe = true
    ∧ (probeNoneState.handleREMB judgeCongestingBE 5 50 100 10 0).1.committedChannelCapacity
        = probeNoneState.committedChannelCapacity
    ∧ probeNoneState.committedChannelCapacity ≤
        (probeNoneState.probeClusterDone judgeCongestingBE).2.committedChannelCapacity :=
  ⟨rfl,
   (c10_probe_freeze judgeCongestingBE probeNoneState 5 50 100 10 0 rfl).1,
   (c10_probe_freeze judgeCongestingBE probeNoneState 5 50 100 10 0 rfl).2.2⟩

end RemoteBweSpec
